import Mathlib

/-!
# Milestone verification in `eth/bor_api_backend.go`

A shallow embedding of `EthAPIBackend.GetRootHash`,
`EthAPIBackend.GetVoteOnRootHash`, `GetBorBlockReceipt` and `GetBorBlockLogs`,
followed by the configuration post-processing of
`internal/cli/server/config.go` (`fillBigInt`, `fillTimeDurations`,
`readConfigFile` and the sync-mode switch of `buildEth`).

* Go's `uint64` block numbers are `Nat`; the functions only pass them on and
  compare nothing numerically, so no overflow can occur.
* A Go `error` is `Option GoError` (`none` is `nil`).
* A call either returns or panics (`Outcome`); the state reached is kept in
  both cases.
* The state carries the downloader's gate and an append-only log of the calls
  made to the collaborators (`Lock`, `Unlock`, the bor API's `GetRootHash`,
  the chain's `GetBlockByNumber`), so that "is never invoked" and "exactly
  once" are statements about the log.
* One call runs from start to end on the state: a gate that is held when a
  call starts is held by another call that is still in flight.
-/

namespace Bor

/-! ## Data model -/

/-- Go `error` value, identified by its message. -/
structure GoError where
  msg : String
deriving DecidableEq, Repr

/-- Go `errors.New`. -/
def errors.New (text : String) : GoError := ⟨text⟩

/-- Type `common.Hash`: 32 bytes, read as a number. -/
structure Hash where
  val : Nat
deriving DecidableEq, Repr

/-- The value `common.Hash{}`. -/
def Hash.zero : Hash := ⟨0⟩

/-- A `types.Block`, reduced to what `Hash()` returns. -/
structure Block where
  hash : Hash
deriving DecidableEq, Repr

/-- A non-nil `*bor.API`: its `GetRootHash(start, end)` returns `(string, error)`. -/
structure BorAPI where
  GetRootHash : Nat → Nat → String × Option GoError

/-- Dynamic value of the `Service interface{}` field of an `rpc.API`: a
`*bor.API` (possibly a nil pointer), or anything else (a nil interface
included). -/
inductive Service where
  | borAPI (p : Option BorAPI)
  | other

/-- An `rpc.API` entry as far as the backend reads it. -/
structure API where
  Namespace : String
  Service : Service

/-- What the backend reaches through `b.eth`: the engine's API list and the
blockchain's `GetBlockByNumber` (`none` is the nil `*types.Block`). -/
structure Backend where
  apis : List API
  GetBlockByNumber : Nat → Option Block

/-- Modelled from the spec: the state of the downloader's gate (`SprintLock`
of section 3 and 4.1), which lives in `eth/downloader` and is not part of the
sources at hand: whether it is held, the end block it was locked for, and the
finality floor `(milestoneId, blockHash)` of the last confirmed release. -/
structure SprintLock where
  held : Bool
  lockedEndBlock : Option Nat
  floor : Option (String × Hash)
deriving DecidableEq, Repr

/-- Modelled from the spec: `downloader.Lock(endBlockNr)`, the `Acquire` of
section 4.1. Held: returns `false`, no state change. Free: becomes held with
`lockedEndBlock = endBlockNr`, returns `true`. -/
def SprintLock.Lock (g : SprintLock) (endBlockNr : Nat) : Bool × SprintLock :=
  if g.held then (false, g)
  else (true, { g with held := true, lockedEndBlock := some endBlockNr })

/-- Modelled from the spec: `downloader.Unlock(confirmed, milestoneId, hash)`,
the `Release` of section 4.1. Held: becomes free, and records the floor when
`confirmed`. Free: no change. -/
def SprintLock.Unlock (g : SprintLock) (confirmed : Bool) (milestoneId : String)
    (blockHash : Hash) : SprintLock :=
  if g.held then
    { held := false, lockedEndBlock := none,
      floor := if confirmed then some (milestoneId, blockHash) else g.floor }
  else g

/-- One call made by the backend to a collaborator. -/
inductive Event where
  | lock (endBlockNr : Nat) (isLocked : Bool)
  | unlock (confirmed : Bool) (milestoneId : String) (blockHash : Hash)
  | getRootHash (starBlockNr endBlockNr : Nat)
  | getBlockByNumber (number : Nat)
deriving DecidableEq, Repr

/-- The gate together with the log of collaborator calls made so far. -/
structure State where
  gate : SprintLock
  log : List Event
deriving DecidableEq, Repr

/-- How a Go call ends: it returns a value or it panics. -/
inductive Outcome (α : Type) where
  | ret (v : α)
  | panic (msg : String)
deriving DecidableEq, Repr

/-- The call `downloader.Lock(endBlockNr)` on the state, logged. -/
def State.Lock (s : State) (endBlockNr : Nat) : Bool × State :=
  ((s.gate.Lock endBlockNr).1,
   { gate := (s.gate.Lock endBlockNr).2,
     log := s.log ++ [Event.lock endBlockNr (s.gate.Lock endBlockNr).1] })

/-- The call `downloader.Unlock(confirmed, milestoneId, hash)` on the state, logged. -/
def State.Unlock (s : State) (confirmed : Bool) (milestoneId : String) (blockHash : Hash) :
    State :=
  { gate := s.gate.Unlock confirmed milestoneId blockHash,
    log := s.log ++ [Event.unlock confirmed milestoneId blockHash] }

/-- Appends one call to the log. -/
def State.record (s : State) (e : Event) : State :=
  { s with log := s.log ++ [e] }

/-! ## The backend functions -/

/-- The loop shared by `GetRootHash` and `GetVoteOnRootHash`:
`for _, _api := range APIs { if _api.Namespace == "bor" { api = _api.Service.(*bor.API) } }`
started from `var api *bor.API`. The one-result type assertion panics on a
service that is not a `*bor.API`; the last `"bor"` entry wins. -/
def findBorAPI : List API → Option BorAPI → Outcome (Option BorAPI)
  | [], api => .ret api
  | _api :: rest, api =>
    if _api.Namespace = "bor" then
      match _api.Service with
      | .borAPI p => findBorAPI rest p
      | .other => .panic "interface conversion: interface is not *bor.API"
    else findBorAPI rest api

/-- Function `EthAPIBackend.GetRootHash` (the unused `ctx` is left out). -/
def GetRootHash (b : Backend) (s : State) (starBlockNr endBlockNr : Nat) :
    Outcome (String × Option GoError) × State :=
  match findBorAPI b.apis none with
  | .panic m => (.panic m, s)
  | .ret none => (.ret ("", some (errors.New "Only available in Bor engine")), s)
  | .ret (some api) =>
    let s1 := s.record (Event.getRootHash starBlockNr endBlockNr)
    match (api.GetRootHash starBlockNr endBlockNr).2 with
    | some err => (.ret ("", some err), s1)
    | none => (.ret ((api.GetRootHash starBlockNr endBlockNr).1, none), s1)

/-- Function `EthAPIBackend.GetVoteOnRootHash`. The unused `ctx` and the
`log.Warn` lines are left out. Calling `Hash()` on the nil block that
`GetBlockByNumber` returns for a missing number panics. -/
def GetVoteOnRootHash (b : Backend) (s : State) (starBlockNr endBlockNr : Nat)
    (rootHash milestoneId : String) : Outcome (Bool × Option GoError) × State :=
  match findBorAPI b.apis none with
  | .panic m => (.panic m, s)
  | .ret none => (.ret (false, some (errors.New "Only available in Bor engine")), s)
  | .ret (some api) =>
    let isLocked := (s.Lock endBlockNr).1
    let s1 := (s.Lock endBlockNr).2
    if !isLocked then
      (.ret (false, some (errors.New "Previous sprint is still in locked state")),
       s1.Unlock false "" Hash.zero)
    else
      let root := (api.GetRootHash starBlockNr endBlockNr).1
      let s2 := s1.record (Event.getRootHash starBlockNr endBlockNr)
      match (api.GetRootHash starBlockNr endBlockNr).2 with
      | some err => (.ret (false, some err), s2.Unlock false "" Hash.zero)
      | none =>
        if root != rootHash then
          (.ret (false, some (errors.New ("RootHash mismatch+" ++ root ++ rootHash))),
           s2.Unlock false "" Hash.zero)
        else
          let s3 := s2.record (Event.getBlockByNumber endBlockNr)
          match b.GetBlockByNumber endBlockNr with
          | none => (.panic "invalid memory address or nil pointer dereference", s3)
          | some endBlock => (.ret (true, none), s3.Unlock true milestoneId endBlock.hash)

/-! ## Reading the log -/

/-- Number of oracle (`api.GetRootHash`) calls in a log. -/
def oracleCalls (l : List Event) : Nat :=
  (l.filter fun e => match e with
    | .getRootHash _ _ => true
    | _ => false).length

/-- Number of `GetBlockByNumber` calls in a log. -/
def blockLookups (l : List Event) : Nat :=
  (l.filter fun e => match e with
    | .getBlockByNumber _ => true
    | _ => false).length

/-- Number of `Unlock` calls in a log. -/
def unlockCalls (l : List Event) : Nat :=
  (l.filter fun e => match e with
    | .unlock _ _ _ => true
    | _ => false).length

/-- Number of `Lock` calls in a log. -/
def lockCalls (l : List Event) : Nat :=
  (l.filter fun e => match e with
    | .lock _ _ => true
    | _ => false).length

/-! ## Concrete inputs -/

/-- An oracle that answers `"R"` for every range. -/
def oracleR : BorAPI := ⟨fun _ _ => ("R", none)⟩

/-- An oracle that fails for every range. -/
def oracleFailing : BorAPI := ⟨fun _ _ => ("", some (errors.New "missing blocks"))⟩

/-- A chain whose block 200 has hash 7 and that has no other block. -/
def chain200 : Nat → Option Block := fun n => if n = 200 then some ⟨⟨7⟩⟩ else none

/-- A bor engine with the oracle `oracleR` over `chain200`. -/
def backendR : Backend := ⟨[⟨"eth", .other⟩, ⟨"bor", .borAPI (some oracleR)⟩], chain200⟩

/-- A bor engine whose oracle fails. -/
def backendFailing : Backend := ⟨[⟨"bor", .borAPI (some oracleFailing)⟩], chain200⟩

/-- An engine without the bor namespace. -/
def backendNoBor : Backend := ⟨[⟨"eth", .other⟩, ⟨"clique", .other⟩], chain200⟩

/-- A free gate with no floor and an empty log. -/
def stateFree : State := ⟨⟨false, none, none⟩, []⟩

/-- A gate held for end block 200, floor `("m0", 3)`, empty log. -/
def stateHeld200 : State := ⟨⟨true, some 200, some ("m0", ⟨3⟩)⟩, []⟩

/-! ## Bor receipts -/

/-- A `*types.Log`, identified by a number. -/
structure Log where
  id : Nat
deriving DecidableEq, Repr

/-- A `types.Receipt`, reduced to its `Logs` slice (`none` is the nil slice). -/
structure Receipt where
  Logs : Option (List Log)
deriving DecidableEq, Repr

/-- Modelled from the spec: the sentinel `ethereum.NotFound` of the root
package, which is not among the sources at hand; the table of section 6 calls
it the "not found" sentinel. -/
def ethereum.NotFound : GoError := errors.New "not found"

/-- Function `EthAPIBackend.GetBorBlockReceipt`. `GetBorReceiptByHash` is the
blockchain's lookup (`none` is the nil `*types.Receipt`); a returned `none`
receipt is Go's `nil`. -/
def GetBorBlockReceipt (GetBorReceiptByHash : Hash → Option Receipt) (hash : Hash) :
    Option Receipt × Option GoError :=
  match GetBorReceiptByHash hash with
  | none => (none, some ethereum.NotFound)
  | some receipt => (some receipt, none)

/-- Function `EthAPIBackend.GetBorBlockLogs`; a returned `none` list is the nil slice. -/
def GetBorBlockLogs (GetBorReceiptByHash : Hash → Option Receipt) (hash : Hash) :
    Option (List Log) × Option GoError :=
  match GetBorReceiptByHash hash with
  | none => (none, none)
  | some receipt => (receipt.Logs, none)

/-- Whether a service value is a `*bor.API` (nil pointer included), that is,
whether the type assertion `Service.(*bor.API)` succeeds on it. -/
def Service.isBorAPI : Service → Bool
  | .borAPI _ => true
  | .other => false

/-! ## More concrete inputs -/

/-- An engine whose `"bor"` entry carries a service that is not a `*bor.API`. -/
def backendBadBor : Backend := ⟨[⟨"bor", .other⟩], chain200⟩

/-- An engine whose `"bor"` entry carries a nil `*bor.API`. -/
def backendNilBor : Backend := ⟨[⟨"eth", .other⟩, ⟨"bor", .borAPI none⟩], chain200⟩

/-- An engine with two `"bor"` entries: the first carries the failing oracle,
the last the oracle `oracleR`. -/
def backendTwoBor : Backend :=
  ⟨[⟨"bor", .borAPI (some oracleFailing)⟩, ⟨"eth", .other⟩, ⟨"bor", .borAPI (some oracleR)⟩],
   chain200⟩

/-- A bor engine whose oracle answers `r` for every range. -/
def backendConst (r : String) : Backend := ⟨[⟨"bor", .borAPI (some ⟨fun _ _ => (r, none)⟩)⟩], chain200⟩

/-! ## Node configuration (`internal/cli/server/config.go`)

Only the fields that `fillBigInt`, `fillTimeDurations`, `readConfigFile` and
the sync-mode switch of `buildEth` read or write are kept. A block pointer is
an `Option` (`none` is nil), a `*big.Int` is an `Option Int`, a
`time.Duration` is an `Int` of nanoseconds. The standard-library parsers
`(*big.Int).SetString` and `time.ParseDuration` are arguments: `none` is
their failure. -/

/-- Go `fmt.Errorf`, applied to the text already formatted. -/
def fmt.Errorf (text : String) : GoError := ⟨text⟩

/-- Go `strings.HasPrefix`, on the characters of the two strings. -/
def strings.HasPrefix (s pre : String) : Bool := pre.toList.isPrefixOf s.toList

/-- Go slice expression `s[n:]` on a string whose first `n` bytes are ASCII
characters (as after `HasPrefix(s, "0x")` with `n = 2`). -/
def strings.sliceFrom (s : String) (n : Nat) : String := ⟨s.toList.drop n⟩

/-- The panic of a nil pointer dereference. -/
def nilDereference : String := "invalid memory address or nil pointer dereference"

/-- Type `TxPoolConfig`, the duration fields and their raw strings. -/
structure TxPoolConfig where
  Rejournal : Int
  RejournalRaw : String
  LifeTime : Int
  LifeTimeRaw : String
deriving DecidableEq, Repr

/-- Type `SealerConfig`, the gas price and its raw string. -/
structure SealerConfig where
  GasPrice : Option Int
  GasPriceRaw : String
deriving DecidableEq, Repr

/-- Type `GpoConfig`, the two prices and their raw strings. -/
structure GpoConfig where
  MaxPrice : Option Int
  MaxPriceRaw : String
  IgnorePrice : Option Int
  IgnorePriceRaw : String
deriving DecidableEq, Repr

/-- Type `CacheConfig`, the rejournal duration and its raw string. -/
structure CacheConfig where
  Rejournal : Int
  RejournalRaw : String
deriving DecidableEq, Repr

/-- Type `Config`, as far as the functions below use it. -/
structure Config where
  SyncMode : String
  TxPool : Option TxPoolConfig
  Sealer : Option SealerConfig
  Gpo : Option GpoConfig
  Cache : Option CacheConfig
deriving DecidableEq, Repr

/-- The parse of one raw string in the loop of `fillBigInt`:
`SetString((*x.str)[2:], 16)` after a `"0x"`, `SetString(*x.str, 10)` otherwise. -/
def fillBigInt.parse (SetString : String → Nat → Option Int) (str : String) : Option Int :=
  if strings.HasPrefix str "0x" then SetString (strings.sliceFrom str 2) 16
  else SetString str 10

/-- One round of the loop of `fillBigInt` on the entry `(path, td, str)`:
the error, or the new values of `*x.td` and `*x.str`. -/
def fillBigInt.round (SetString : String → Nat → Option Int) (path : String)
    (td : Option Int) (str : String) : Except GoError (Option Int × String) :=
  if str != "" then
    match fillBigInt.parse SetString str with
    | none => .error (fmt.Errorf (path ++ " can't parse big int " ++ str))
    | some b => .ok (some b, "")
  else .ok (td, str)

/-- Function `Config.fillBigInt`. Building the table `tds` takes the addresses
`&c.Gpo.MaxPrice` and `&c.Sealer.GasPrice`, which panics on a nil block before
the loop starts; the loop then runs over the three entries in order and
writes through the pointers, so the rounds before a failing one have taken
effect when the error is returned. -/
def Config.fillBigInt (SetString : String → Nat → Option Int) (c : Config) :
    Outcome (Option GoError) × Config :=
  match c.Gpo with
  | none => (.panic nilDereference, c)
  | some g =>
    match c.Sealer with
    | none => (.panic nilDereference, c)
    | some sl =>
      match fillBigInt.round SetString "gpo.maxprice" g.MaxPrice g.MaxPriceRaw with
      | .error err => (.ret (some err), c)
      | .ok (v1, r1) =>
        let g1 : GpoConfig := { g with MaxPrice := v1, MaxPriceRaw := r1 }
        match fillBigInt.round SetString "gpo.ignoreprice" g1.IgnorePrice g1.IgnorePriceRaw with
        | .error err => (.ret (some err), { c with Gpo := some g1 })
        | .ok (v2, r2) =>
          let g2 : GpoConfig := { g1 with IgnorePrice := v2, IgnorePriceRaw := r2 }
          match fillBigInt.round SetString "miner.gasprice" sl.GasPrice sl.GasPriceRaw with
          | .error err => (.ret (some err), { c with Gpo := some g2 })
          | .ok (v3, r3) =>
            (.ret none,
             { c with Gpo := some g2,
                      Sealer := some { sl with GasPrice := v3, GasPriceRaw := r3 } })

/-- One round of the loop of `fillTimeDurations` on the entry `(path, td, str)`;
the two pointers of an entry are never nil. -/
def fillTimeDurations.round (ParseDuration : String → Option Int) (path : String)
    (td : Int) (str : String) : Except GoError (Int × String) :=
  if str != "" then
    match ParseDuration str with
    | none => .error (fmt.Errorf (path ++ " can't parse time duration " ++ str))
    | some d => .ok (d, "")
  else .ok (td, str)

/-- Function `Config.fillTimeDurations`; the table takes addresses inside
`c.TxPool` and `c.Cache`, which panics on a nil block. -/
def Config.fillTimeDurations (ParseDuration : String → Option Int) (c : Config) :
    Outcome (Option GoError) × Config :=
  match c.TxPool with
  | none => (.panic nilDereference, c)
  | some t =>
    match c.Cache with
    | none => (.panic nilDereference, c)
    | some ch =>
      match fillTimeDurations.round ParseDuration "txpool.lifetime" t.LifeTime t.LifeTimeRaw with
      | .error err => (.ret (some err), c)
      | .ok (v1, r1) =>
        let t1 : TxPoolConfig := { t with LifeTime := v1, LifeTimeRaw := r1 }
        match fillTimeDurations.round ParseDuration "txpool.rejournal" t1.Rejournal
            t1.RejournalRaw with
        | .error err => (.ret (some err), { c with TxPool := some t1 })
        | .ok (v2, r2) =>
          let t2 : TxPoolConfig := { t1 with Rejournal := v2, RejournalRaw := r2 }
          match fillTimeDurations.round ParseDuration "cache.rejournal" ch.Rejournal
              ch.RejournalRaw with
          | .error err => (.ret (some err), { c with TxPool := some t2 })
          | .ok (v3, r3) =>
            (.ret none,
             { c with TxPool := some t2,
                      Cache := some { ch with Rejournal := v3, RejournalRaw := r3 } })

/-- What `readConfigFile` calls outside the file at hand: `filepath.Ext`,
`readLegacyConfig`, and `hclsimple.DecodeFile(path, nil, config)`, which
returns the configuration as decoding leaves it together with its error. -/
structure Files where
  Ext : String → String
  readLegacyConfig : String → Outcome (Option Config × Option GoError)
  DecodeFile : String → Config → Config × Option GoError

/-- The configuration `readConfigFile` starts from: `TxPool`, `Cache` and
`Sealer` are empty structs, every other field has its zero value. -/
def readConfigFile.initial : Config :=
  { SyncMode := "",
    TxPool := some ⟨0, "", 0, ""⟩,
    Cache := some ⟨0, ""⟩,
    Sealer := some ⟨none, ""⟩,
    Gpo := none }

/-- Function `readConfigFile`. -/
def readConfigFile (SetString : String → Nat → Option Int)
    (ParseDuration : String → Option Int) (F : Files) (path : String) :
    Outcome (Option Config × Option GoError) :=
  if F.Ext path = ".toml" then F.readLegacyConfig path
  else
    match F.DecodeFile path readConfigFile.initial with
    | (_, some err) =>
      .ret (none, some (fmt.Errorf
        ("failed to decode config file '" ++ path ++ "': " ++ err.msg)))
    | (config, none) =>
      match config.fillBigInt SetString with
      | (.panic m, _) => .panic m
      | (.ret (some err), _) => .ret (none, some err)
      | (.ret none, config1) =>
        match config1.fillTimeDurations ParseDuration with
        | (.panic m, _) => .panic m
        | (.ret (some err), _) => .ret (none, some err)
        | (.ret none, config2) => .ret (some config2, none)

/-- The sync modes of `eth/downloader` that `buildEth` names. -/
inductive downloader.SyncMode where
  | FullSync
  | SnapSync
deriving DecidableEq, Repr

/-- The sync-mode `switch c.SyncMode` of `Config.buildEth` (lines 847 to 854):
the value assigned to `n.SyncMode`, or the error `buildEth` returns there.
The rest of `buildEth` is not part of this definition; in developer mode it
sets `c.SyncMode` to `"full"` before the switch is reached. -/
def Config.buildEth.syncMode (c : Config) : Except GoError downloader.SyncMode :=
  if c.SyncMode = "full" then .ok downloader.SyncMode.FullSync
  else if c.SyncMode = "snap" then .ok downloader.SyncMode.SnapSync
  else .error (fmt.Errorf ("sync mode '" ++ c.SyncMode ++ "' not found"))

/-- Whether a raw string passes its round of `fillBigInt`: it is empty, or
its parse succeeds. -/
def fillBigInt.accepts (SetString : String → Nat → Option Int) (str : String) : Bool :=
  str == "" || (fillBigInt.parse SetString str).isSome

/-- The big-integer field after a passed round: the old value for an empty
raw string, the parsed value otherwise. -/
def fillBigInt.value (SetString : String → Nat → Option Int) (td : Option Int)
    (str : String) : Option Int :=
  if str = "" then td else fillBigInt.parse SetString str

/-! ## Concrete configurations -/

/-- Value of a digit in bases up to 36, letters in either case. -/
def digitValue (ch : Char) : Option Nat :=
  if '0' ≤ ch ∧ ch ≤ '9' then some (ch.toNat - '0'.toNat)
  else if 'a' ≤ ch ∧ ch ≤ 'z' then some (ch.toNat - 'a'.toNat + 10)
  else if 'A' ≤ ch ∧ ch ≤ 'Z' then some (ch.toNat - 'A'.toNat + 10)
  else none

/-- Reads a list of digits in the given base, most significant first. -/
def readDigits (base : Nat) : List Char → Nat → Option Nat
  | [], acc => some acc
  | ch :: rest, acc =>
    match digitValue ch with
    | some d => if d < base then readDigits base rest (acc * base + d) else none
    | none => none

/-- A sample `SetString`: an optional sign followed by at least one digit of
the given base, and nothing else. -/
def sampleSetString (s : String) (base : Nat) : Option Int :=
  match s.toList with
  | [] => none
  | '-' :: rest => if rest = [] then none else (readDigits base rest 0).map fun n => -(n : Int)
  | '+' :: rest => if rest = [] then none else (readDigits base rest 0).map fun n => (n : Int)
  | digits => (readDigits base digits 0).map fun n => (n : Int)

/-- A configuration with raw prices `"0x10"`, `""` and `"25"`. -/
def configRaw : Config :=
  { SyncMode := "full",
    TxPool := some ⟨0, "", 0, ""⟩,
    Cache := some ⟨0, ""⟩,
    Sealer := some ⟨some 1, "25"⟩,
    Gpo := some ⟨none, "0x10", some 2, ""⟩ }

/-- An HCL file without any block: decoding succeeds and sets nothing. -/
def filesEmptyHcl : Files :=
  { Ext := fun _ => ".hcl",
    readLegacyConfig := fun _ => .ret (none, some (errors.New "legacy")),
    DecodeFile := fun _ config => (config, none) }

/-- A configuration that asks for the sync mode `"fast"`. -/
def configFast : Config := { configRaw with SyncMode := "fast" }

/-! ## Gate lemmas -/

theorem SprintLock.Lock_free (g : SprintLock) (n : Nat) (h : g.held = false) :
    g.Lock n = (true, { g with held := true, lockedEndBlock := some n }) := by
  simp [SprintLock.Lock, h]

theorem SprintLock.Lock_held (g : SprintLock) (n : Nat) (h : g.held = true) :
    g.Lock n = (false, g) := by
  simp [SprintLock.Lock, h]

theorem SprintLock.Unlock_held (g : SprintLock) (c : Bool) (id : String) (x : Hash)
    (h : g.held = true) :
    g.Unlock c id x =
      { held := false, lockedEndBlock := none, floor := if c then some (id, x) else g.floor } := by
  simp [SprintLock.Unlock, h]

theorem SprintLock.Unlock_free (g : SprintLock) (c : Bool) (id : String) (x : Hash)
    (h : g.held = false) : g.Unlock c id x = g := by
  simp [SprintLock.Unlock, h]

/-- On a list without a `"bor"` entry the lookup loop keeps its initial value. -/
theorem findBorAPI_no_bor (l : List API) (init : Option BorAPI)
    (h : ∀ a ∈ l, a.Namespace ≠ "bor") : findBorAPI l init = .ret init := by
  induction l generalizing init with
  | nil => rfl
  | cons a rest ih =>
    have ha : a.Namespace ≠ "bor" := h a (List.mem_cons_self a rest)
    have hrest : ∀ x ∈ rest, x.Namespace ≠ "bor" := fun x hx => h x (List.mem_cons_of_mem a hx)
    simp [findBorAPI, ha, ih init hrest]

/-! ## The exit paths of `GetVoteOnRootHash` -/

/-- Claim C1 (success path): when the engine exposes the bor API, the gate is
free, the oracle answers `R` without error, the claimed root is `R` and the
chain has a block with hash `H` at `endBlockNr`, the call returns
`(true, nil)`, the gate is free afterwards and the finality floor is
`(milestoneId, H)`. The calls made are `Lock`, the oracle, the block lookup
and `Unlock(true, milestoneId, H)`, in this order. -/
theorem GetVoteOnRootHash_success (b : Backend) (s : State) (api : BorAPI)
    (starBlockNr endBlockNr : Nat) (rootHash milestoneId R : String) (blk : Block) (H : Hash)
    (hapi : findBorAPI b.apis none = .ret (some api))
    (hfree : s.gate.held = false)
    (horacle : api.GetRootHash starBlockNr endBlockNr = (R, none))
    (hroot : rootHash = R)
    (hblk : b.GetBlockByNumber endBlockNr = some blk)
    (hH : blk.hash = H) :
    (GetVoteOnRootHash b s starBlockNr endBlockNr rootHash milestoneId).1 = .ret (true, none) ∧
    (GetVoteOnRootHash b s starBlockNr endBlockNr rootHash milestoneId).2.gate.held = false ∧
    (GetVoteOnRootHash b s starBlockNr endBlockNr rootHash milestoneId).2.gate.lockedEndBlock
      = none ∧
    (GetVoteOnRootHash b s starBlockNr endBlockNr rootHash milestoneId).2.gate.floor
      = some (milestoneId, H) ∧
    (GetVoteOnRootHash b s starBlockNr endBlockNr rootHash milestoneId).2.log
      = s.log ++ [Event.lock endBlockNr true, Event.getRootHash starBlockNr endBlockNr,
                  Event.getBlockByNumber endBlockNr, Event.unlock true milestoneId H] := by
  subst hroot hH
  simp [GetVoteOnRootHash, hapi, State.Lock, State.Unlock, State.record, SprintLock.Lock,
    SprintLock.Unlock, hfree, horacle, hblk]

theorem GetVoteOnRootHash_success_witness :
    (GetVoteOnRootHash backendR stateFree 100 200 "R" "m1").1 = .ret (true, none) ∧
    (GetVoteOnRootHash backendR stateFree 100 200 "R" "m1").2.gate.held = false ∧
    (GetVoteOnRootHash backendR stateFree 100 200 "R" "m1").2.gate.lockedEndBlock = none ∧
    (GetVoteOnRootHash backendR stateFree 100 200 "R" "m1").2.gate.floor
      = some ("m1", (⟨7⟩ : Hash)) ∧
    (GetVoteOnRootHash backendR stateFree 100 200 "R" "m1").2.log
      = stateFree.log ++ [Event.lock 200 true, Event.getRootHash 100 200,
                  Event.getBlockByNumber 200, Event.unlock true "m1" ⟨7⟩] :=
  GetVoteOnRootHash_success backendR stateFree oracleR 100 200 "R" "m1" "R" ⟨⟨7⟩⟩ ⟨7⟩
    rfl rfl rfl rfl rfl rfl

/-- Claim C2 (the floor is written iff the claim is accepted): from any gate
state, the events `evs` of one call contain an `Unlock` with confirmed = true
iff the call returns true; when it returns true the oracle's root for the
range equals `rootHash`, that `Unlock` is the only one, it carries
`(milestoneId, hash of block endBlockNr)` and this pair is the floor
afterwards; a call that does not return true (it returns false, or it
panics) leaves the floor as it was. -/
theorem floor_written_iff_accepted (b : Backend) (s : State) (starBlockNr endBlockNr : Nat)
    (rootHash milestoneId : String) :
    ∃ evs : List Event,
      (GetVoteOnRootHash b s starBlockNr endBlockNr rootHash milestoneId).2.log = s.log ++ evs ∧
      ((∃ id h, Event.unlock true id h ∈ evs) ↔
        (∃ e, (GetVoteOnRootHash b s starBlockNr endBlockNr rootHash milestoneId).1
          = .ret (true, e))) ∧
      ((∃ e, (GetVoteOnRootHash b s starBlockNr endBlockNr rootHash milestoneId).1
          = .ret (true, e)) →
        ∃ api blk, findBorAPI b.apis none = .ret (some api) ∧
          api.GetRootHash starBlockNr endBlockNr = (rootHash, none) ∧
          b.GetBlockByNumber endBlockNr = some blk ∧
          unlockCalls evs = 1 ∧
          Event.unlock true milestoneId blk.hash ∈ evs ∧
          (GetVoteOnRootHash b s starBlockNr endBlockNr rootHash milestoneId).2.gate.floor
            = some (milestoneId, blk.hash)) ∧
      ((¬ ∃ e, (GetVoteOnRootHash b s starBlockNr endBlockNr rootHash milestoneId).1
          = .ret (true, e)) →
        (GetVoteOnRootHash b s starBlockNr endBlockNr rootHash milestoneId).2.gate.floor
          = s.gate.floor) := by
  unfold GetVoteOnRootHash
  cases hapi : findBorAPI b.apis none with
  | panic m => exact ⟨[], by simp⟩
  | ret o =>
    cases o with
    | none => exact ⟨[], by simp⟩
    | some api =>
      cases hheld : s.gate.held with
      | true =>
        refine ⟨[Event.lock endBlockNr false, Event.unlock false "" Hash.zero], ?_⟩
        simp [State.Lock, State.Unlock, SprintLock.Lock, SprintLock.Unlock, hheld]
      | false =>
        rcases horacle : api.GetRootHash starBlockNr endBlockNr with ⟨root, err⟩
        cases err with
        | some e =>
          refine ⟨[Event.lock endBlockNr true, Event.getRootHash starBlockNr endBlockNr,
            Event.unlock false "" Hash.zero], ?_⟩
          simp [State.Lock, State.Unlock, State.record, SprintLock.Lock, SprintLock.Unlock,
            hheld, horacle]
        | none =>
          by_cases hr : root = rootHash
          · cases hblk : b.GetBlockByNumber endBlockNr with
            | none =>
              refine ⟨[Event.lock endBlockNr true, Event.getRootHash starBlockNr endBlockNr,
                Event.getBlockByNumber endBlockNr], ?_⟩
              simp [State.Lock, State.Unlock, State.record, SprintLock.Lock, SprintLock.Unlock,
                hheld, horacle, hr, hblk]
            | some blk =>
              refine ⟨[Event.lock endBlockNr true, Event.getRootHash starBlockNr endBlockNr,
                Event.getBlockByNumber endBlockNr, Event.unlock true milestoneId blk.hash], ?_⟩
              simp [State.Lock, State.Unlock, State.record, SprintLock.Lock, SprintLock.Unlock,
                hheld, horacle, hr, hblk, unlockCalls]
          · refine ⟨[Event.lock endBlockNr true, Event.getRootHash starBlockNr endBlockNr,
              Event.unlock false "" Hash.zero], ?_⟩
            simp [State.Lock, State.Unlock, State.record, SprintLock.Lock, SprintLock.Unlock,
              hheld, horacle, hr]

/-- Claim C3 (mismatch path): when the gate is acquired and the oracle answers
without error a root `R` different from `rootHash`, the call returns false
with the root-mismatch error (so it does not return true), the gate is free
afterwards, the floor is unchanged, and the calls made are `Lock`, the oracle
and `Unlock(false, "", zero hash)`: the block is not looked up. -/
theorem GetVoteOnRootHash_mismatch (b : Backend) (s : State) (api : BorAPI)
    (starBlockNr endBlockNr : Nat) (rootHash milestoneId R : String)
    (hapi : findBorAPI b.apis none = .ret (some api))
    (hfree : s.gate.held = false)
    (horacle : api.GetRootHash starBlockNr endBlockNr = (R, none))
    (hne : R ≠ rootHash) :
    (GetVoteOnRootHash b s starBlockNr endBlockNr rootHash milestoneId).1
      = .ret (false, some (errors.New ("RootHash mismatch+" ++ R ++ rootHash))) ∧
    (∀ e, (GetVoteOnRootHash b s starBlockNr endBlockNr rootHash milestoneId).1
      ≠ .ret (true, e)) ∧
    (GetVoteOnRootHash b s starBlockNr endBlockNr rootHash milestoneId).2.gate.held = false ∧
    (GetVoteOnRootHash b s starBlockNr endBlockNr rootHash milestoneId).2.gate.floor
      = s.gate.floor ∧
    (GetVoteOnRootHash b s starBlockNr endBlockNr rootHash milestoneId).2.log
      = s.log ++ [Event.lock endBlockNr true, Event.getRootHash starBlockNr endBlockNr,
                  Event.unlock false "" Hash.zero] ∧
    blockLookups ((GetVoteOnRootHash b s starBlockNr endBlockNr rootHash milestoneId).2.log.drop
      s.log.length) = 0 := by
  simp [GetVoteOnRootHash, hapi, State.Lock, State.Unlock, State.record, SprintLock.Lock,
    SprintLock.Unlock, hfree, horacle, hne, blockLookups]

theorem GetVoteOnRootHash_mismatch_witness :
    (GetVoteOnRootHash backendR stateFree 100 200 "Q" "m1").1
      = .ret (false, some (errors.New ("RootHash mismatch+" ++ "R" ++ "Q"))) ∧
    (∀ e, (GetVoteOnRootHash backendR stateFree 100 200 "Q" "m1").1 ≠ .ret (true, e)) ∧
    (GetVoteOnRootHash backendR stateFree 100 200 "Q" "m1").2.gate.held = false ∧
    (GetVoteOnRootHash backendR stateFree 100 200 "Q" "m1").2.gate.floor
      = stateFree.gate.floor ∧
    (GetVoteOnRootHash backendR stateFree 100 200 "Q" "m1").2.log
      = stateFree.log ++ [Event.lock 200 true, Event.getRootHash 100 200,
                  Event.unlock false "" Hash.zero] ∧
    blockLookups ((GetVoteOnRootHash backendR stateFree 100 200 "Q" "m1").2.log.drop
      stateFree.log.length) = 0 :=
  GetVoteOnRootHash_mismatch backendR stateFree oracleR 100 200 "Q" "m1" "R"
    rfl rfl rfl (by decide)

/-- Claim C4 (contention path): when the bor API is resolved and the
downloader's `Lock(endBlockNr)` returns false (as it does on a held gate,
`SprintLock.Lock_held`), the call returns false with the contention error,
and among the calls it makes there is no oracle call and no block lookup. -/
theorem GetVoteOnRootHash_contention (b : Backend) (s : State) (api : BorAPI)
    (starBlockNr endBlockNr : Nat) (rootHash milestoneId : String)
    (hapi : findBorAPI b.apis none = .ret (some api))
    (hlock : (s.gate.Lock endBlockNr).1 = false) :
    (GetVoteOnRootHash b s starBlockNr endBlockNr rootHash milestoneId).1
      = .ret (false, some (errors.New "Previous sprint is still in locked state")) ∧
    (GetVoteOnRootHash b s starBlockNr endBlockNr rootHash milestoneId).2.log
      = s.log ++ [Event.lock endBlockNr false, Event.unlock false "" Hash.zero] ∧
    oracleCalls ((GetVoteOnRootHash b s starBlockNr endBlockNr rootHash milestoneId).2.log.drop
      s.log.length) = 0 ∧
    blockLookups ((GetVoteOnRootHash b s starBlockNr endBlockNr rootHash milestoneId).2.log.drop
      s.log.length) = 0 := by
  simp [GetVoteOnRootHash, hapi, State.Lock, State.Unlock, hlock, oracleCalls, blockLookups]

theorem GetVoteOnRootHash_contention_witness :
    stateHeld200.gate.held = true ∧
    (GetVoteOnRootHash backendR stateHeld200 100 250 "R" "m2").1
      = .ret (false, some (errors.New "Previous sprint is still in locked state")) ∧
    (GetVoteOnRootHash backendR stateHeld200 100 250 "R" "m2").2.log
      = stateHeld200.log ++ [Event.lock 250 false, Event.unlock false "" Hash.zero] ∧
    oracleCalls ((GetVoteOnRootHash backendR stateHeld200 100 250 "R" "m2").2.log.drop
      stateHeld200.log.length) = 0 ∧
    blockLookups ((GetVoteOnRootHash backendR stateHeld200 100 250 "R" "m2").2.log.drop
      stateHeld200.log.length) = 0 :=
  ⟨rfl, GetVoteOnRootHash_contention backendR stateHeld200 oracleR 100 250 "R" "m2" rfl rfl⟩

/-- Claim C5, as stated, fails: the gate is held for end block 200 and call B
(end block 250) fails to acquire it. The gate operations of B are not the
failed `Lock` alone: after it B calls `Unlock(false, "", zero hash)`. -/
theorem losing_call_unlocks_counterexample :
    stateHeld200.gate.held = true ∧ stateHeld200.gate.lockedEndBlock = some 200 ∧
    (GetVoteOnRootHash backendR stateHeld200 100 250 "R" "m2").1
      = .ret (false, some (errors.New "Previous sprint is still in locked state")) ∧
    (GetVoteOnRootHash backendR stateHeld200 100 250 "R" "m2").2.log
      = [Event.lock 250 false, Event.unlock false "" Hash.zero] ∧
    (GetVoteOnRootHash backendR stateHeld200 100 250 "R" "m2").2.log
      ≠ [Event.lock 250 false] ∧
    unlockCalls (GetVoteOnRootHash backendR stateHeld200 100 250 "R" "m2").2.log = 1 := by
  decide

/-- Claim C5, amended: when the gate is held and the `Lock` of call B returns
false, B returns the contention error and makes exactly two gate calls, the
failed `Lock` and then one `Unlock(false, "", zero hash)`; the finality floor
is unchanged. -/
theorem losing_call_gate_calls (b : Backend) (s : State) (api : BorAPI)
    (starBlockNr endBlockNr : Nat) (rootHash milestoneId : String)
    (hapi : findBorAPI b.apis none = .ret (some api))
    (hheld : s.gate.held = true)
    (hlock : (s.gate.Lock endBlockNr).1 = false) :
    (GetVoteOnRootHash b s starBlockNr endBlockNr rootHash milestoneId).1
      = .ret (false, some (errors.New "Previous sprint is still in locked state")) ∧
    (GetVoteOnRootHash b s starBlockNr endBlockNr rootHash milestoneId).2.log
      = s.log ++ [Event.lock endBlockNr false, Event.unlock false "" Hash.zero] ∧
    lockCalls ((GetVoteOnRootHash b s starBlockNr endBlockNr rootHash milestoneId).2.log.drop
      s.log.length) = 1 ∧
    unlockCalls ((GetVoteOnRootHash b s starBlockNr endBlockNr rootHash milestoneId).2.log.drop
      s.log.length) = 1 ∧
    (GetVoteOnRootHash b s starBlockNr endBlockNr rootHash milestoneId).2.gate.floor
      = s.gate.floor := by
  have hlog : (GetVoteOnRootHash b s starBlockNr endBlockNr rootHash milestoneId).2.log
      = s.log ++ [Event.lock endBlockNr false, Event.unlock false "" Hash.zero] := by
    simp [GetVoteOnRootHash, hapi, State.Lock, State.Unlock, hlock]
  refine ⟨?_, hlog, ?_, ?_, ?_⟩
  · simp [GetVoteOnRootHash, hapi, State.Lock, hlock]
  · simp [hlog, lockCalls]
  · simp [hlog, unlockCalls]
  · simp [GetVoteOnRootHash, hapi, State.Lock, State.Unlock, SprintLock.Lock,
      SprintLock.Unlock, hheld]

theorem losing_call_gate_calls_witness :
    (GetVoteOnRootHash backendR stateHeld200 100 250 "R" "m2").1
      = .ret (false, some (errors.New "Previous sprint is still in locked state")) ∧
    (GetVoteOnRootHash backendR stateHeld200 100 250 "R" "m2").2.log
      = stateHeld200.log ++ [Event.lock 250 false, Event.unlock false "" Hash.zero] ∧
    lockCalls ((GetVoteOnRootHash backendR stateHeld200 100 250 "R" "m2").2.log.drop
      stateHeld200.log.length) = 1 ∧
    unlockCalls ((GetVoteOnRootHash backendR stateHeld200 100 250 "R" "m2").2.log.drop
      stateHeld200.log.length) = 1 ∧
    (GetVoteOnRootHash backendR stateHeld200 100 250 "R" "m2").2.gate.floor
      = stateHeld200.gate.floor :=
  losing_call_gate_calls backendR stateHeld200 oracleR 100 250 "R" "m2" rfl rfl rfl

/-- Claim C6 (oracle-error path): when the gate is acquired and the oracle
returns the error `e`, the call makes `Lock`, the oracle call and
`Unlock(false, "", zero hash)` and no block lookup, returns false together
with `e` itself, and leaves the gate free and the finality floor unchanged. -/
theorem GetVoteOnRootHash_oracle_error (b : Backend) (s : State) (api : BorAPI)
    (starBlockNr endBlockNr : Nat) (rootHash milestoneId R : String) (e : GoError)
    (hapi : findBorAPI b.apis none = .ret (some api))
    (hfree : s.gate.held = false)
    (horacle : api.GetRootHash starBlockNr endBlockNr = (R, some e)) :
    (GetVoteOnRootHash b s starBlockNr endBlockNr rootHash milestoneId).1
      = .ret (false, some e) ∧
    (GetVoteOnRootHash b s starBlockNr endBlockNr rootHash milestoneId).2.log
      = s.log ++ [Event.lock endBlockNr true, Event.getRootHash starBlockNr endBlockNr,
                  Event.unlock false "" Hash.zero] ∧
    blockLookups ((GetVoteOnRootHash b s starBlockNr endBlockNr rootHash milestoneId).2.log.drop
      s.log.length) = 0 ∧
    (GetVoteOnRootHash b s starBlockNr endBlockNr rootHash milestoneId).2.gate.held = false ∧
    (GetVoteOnRootHash b s starBlockNr endBlockNr rootHash milestoneId).2.gate.floor
      = s.gate.floor := by
  simp [GetVoteOnRootHash, hapi, State.Lock, State.Unlock, State.record, SprintLock.Lock,
    SprintLock.Unlock, hfree, horacle, blockLookups]

theorem GetVoteOnRootHash_oracle_error_witness :
    (GetVoteOnRootHash backendFailing stateFree 100 200 "R" "m1").1
      = .ret (false, some (errors.New "missing blocks")) ∧
    (GetVoteOnRootHash backendFailing stateFree 100 200 "R" "m1").2.log
      = stateFree.log ++ [Event.lock 200 true, Event.getRootHash 100 200,
                  Event.unlock false "" Hash.zero] ∧
    blockLookups ((GetVoteOnRootHash backendFailing stateFree 100 200 "R" "m1").2.log.drop
      stateFree.log.length) = 0 ∧
    (GetVoteOnRootHash backendFailing stateFree 100 200 "R" "m1").2.gate.held = false ∧
    (GetVoteOnRootHash backendFailing stateFree 100 200 "R" "m1").2.gate.floor
      = stateFree.gate.floor :=
  GetVoteOnRootHash_oracle_error backendFailing stateFree oracleFailing 100 200 "R" "m1" ""
    (errors.New "missing blocks") rfl rfl rfl

/-- Claim C7 (not-found path), what the code does: when the gate is acquired,
the oracle's root equals `rootHash` and the chain has no block at
`endBlockNr`, the call does not return `(false, NotFound)`: it panics on the
nil block after `Lock`, the oracle call and the block lookup, without any
`Unlock`, and the gate stays held for `endBlockNr`. -/
theorem GetVoteOnRootHash_missing_block_panics (b : Backend) (s : State) (api : BorAPI)
    (starBlockNr endBlockNr : Nat) (rootHash milestoneId : String)
    (hapi : findBorAPI b.apis none = .ret (some api))
    (hfree : s.gate.held = false)
    (horacle : api.GetRootHash starBlockNr endBlockNr = (rootHash, none))
    (hblk : b.GetBlockByNumber endBlockNr = none) :
    (GetVoteOnRootHash b s starBlockNr endBlockNr rootHash milestoneId).1
      = .panic "invalid memory address or nil pointer dereference" ∧
    (GetVoteOnRootHash b s starBlockNr endBlockNr rootHash milestoneId).2.log
      = s.log ++ [Event.lock endBlockNr true, Event.getRootHash starBlockNr endBlockNr,
                  Event.getBlockByNumber endBlockNr] ∧
    (GetVoteOnRootHash b s starBlockNr endBlockNr rootHash milestoneId).2.gate.held = true ∧
    (GetVoteOnRootHash b s starBlockNr endBlockNr rootHash milestoneId).2.gate.lockedEndBlock
      = some endBlockNr ∧
    (GetVoteOnRootHash b s starBlockNr endBlockNr rootHash milestoneId).2.gate.floor
      = s.gate.floor := by
  simp [GetVoteOnRootHash, hapi, State.Lock, State.record, SprintLock.Lock, hfree, horacle,
    hblk]

theorem GetVoteOnRootHash_missing_block_panics_witness :
    (GetVoteOnRootHash backendR stateFree 100 250 "R" "m1").1
      = .panic "invalid memory address or nil pointer dereference" ∧
    (GetVoteOnRootHash backendR stateFree 100 250 "R" "m1").2.log
      = stateFree.log ++ [Event.lock 250 true, Event.getRootHash 100 250,
                  Event.getBlockByNumber 250] ∧
    (GetVoteOnRootHash backendR stateFree 100 250 "R" "m1").2.gate.held = true ∧
    (GetVoteOnRootHash backendR stateFree 100 250 "R" "m1").2.gate.lockedEndBlock = some 250 ∧
    (GetVoteOnRootHash backendR stateFree 100 250 "R" "m1").2.gate.floor
      = stateFree.gate.floor :=
  GetVoteOnRootHash_missing_block_panics backendR stateFree oracleR 100 250 "R" "m1"
    rfl rfl rfl rfl

/-- Whenever the bor API is resolved and the call returns, the events of the
call end with its only `Unlock` and the gate is free afterwards. -/
theorem returns_imp_unlocked (b : Backend) (s : State) (api : BorAPI)
    (starBlockNr endBlockNr : Nat) (rootHash milestoneId : String)
    (v : Bool × Option GoError)
    (hapi : findBorAPI b.apis none = .ret (some api))
    (hret : (GetVoteOnRootHash b s starBlockNr endBlockNr rootHash milestoneId).1 = .ret v) :
    (GetVoteOnRootHash b s starBlockNr endBlockNr rootHash milestoneId).2.gate.held = false ∧
    ∃ pre c id h,
      (GetVoteOnRootHash b s starBlockNr endBlockNr rootHash milestoneId).2.log
        = s.log ++ (pre ++ [Event.unlock c id h]) ∧ unlockCalls pre = 0 := by
  revert hret
  unfold GetVoteOnRootHash
  rw [hapi]
  cases hheld : s.gate.held with
  | true =>
    intro _
    refine ⟨by simp [State.Lock, State.Unlock, SprintLock.Lock, SprintLock.Unlock, hheld],
      [Event.lock endBlockNr false], false, "", Hash.zero, ?_⟩
    simp [State.Lock, State.Unlock, SprintLock.Lock, hheld, unlockCalls]
  | false =>
    rcases horacle : api.GetRootHash starBlockNr endBlockNr with ⟨root, err⟩
    cases err with
    | some e =>
      intro _
      refine ⟨by simp [State.Lock, State.Unlock, State.record, SprintLock.Lock,
        SprintLock.Unlock, hheld, horacle],
        [Event.lock endBlockNr true, Event.getRootHash starBlockNr endBlockNr],
        false, "", Hash.zero, ?_⟩
      simp [State.Lock, State.Unlock, State.record, SprintLock.Lock, hheld, horacle,
        unlockCalls]
    | none =>
      by_cases hr : root = rootHash
      · cases hblk : b.GetBlockByNumber endBlockNr with
        | none =>
          simp [State.Lock, SprintLock.Lock, hheld, horacle, hr, hblk]
        | some blk =>
          intro _
          refine ⟨by simp [State.Lock, State.Unlock, State.record, SprintLock.Lock,
            SprintLock.Unlock, hheld, horacle, hr, hblk],
            [Event.lock endBlockNr true, Event.getRootHash starBlockNr endBlockNr,
              Event.getBlockByNumber endBlockNr], true, milestoneId, blk.hash, ?_⟩
          simp [State.Lock, State.Unlock, State.record, SprintLock.Lock, hheld, horacle, hr,
            hblk, unlockCalls]
      · intro _
        refine ⟨by simp [State.Lock, State.Unlock, State.record, SprintLock.Lock,
          SprintLock.Unlock, hheld, horacle, hr],
          [Event.lock endBlockNr true, Event.getRootHash starBlockNr endBlockNr],
          false, "", Hash.zero, ?_⟩
        simp [State.Lock, State.Unlock, State.record, SprintLock.Lock, hheld, horacle, hr,
          unlockCalls]

/-- Claim C8 (no leak), at the failing input: the gate is free, the oracle's
root `"R"` equals the claimed root and the chain has no block 250. The call
does not return (it panics) and the gate is held for block 250 afterwards. -/
theorem no_leak_fails_on_missing_block :
    stateFree.gate.held = false ∧
    chain200 250 = none ∧
    (∀ v, (GetVoteOnRootHash backendR stateFree 100 250 "R" "m1").1 ≠ .ret v) ∧
    (GetVoteOnRootHash backendR stateFree 100 250 "R" "m1").2.gate
      = ⟨true, some 250, none⟩ := by
  refine ⟨rfl, rfl, ?_, rfl⟩
  intro v h
  have hp : (GetVoteOnRootHash backendR stateFree 100 250 "R" "m1").1
      = .panic "invalid memory address or nil pointer dereference" := rfl
  rw [hp] at h
  cases h

/-- Claim C9 (release exactly once), at the failing input: `Lock(250)`
returned true, the oracle and the block lookup were called, and the call
ends (by a panic) with no `Unlock` at all among its calls. -/
theorem unlock_missing_on_missing_block :
    (GetVoteOnRootHash backendR stateFree 100 250 "R" "m1").2.log
      = [Event.lock 250 true, Event.getRootHash 100 250, Event.getBlockByNumber 250] ∧
    lockCalls (GetVoteOnRootHash backendR stateFree 100 250 "R" "m1").2.log = 1 ∧
    unlockCalls (GetVoteOnRootHash backendR stateFree 100 250 "R" "m1").2.log = 0 ∧
    (GetVoteOnRootHash backendR stateFree 100 250 "R" "m1").1
      = .panic "invalid memory address or nil pointer dereference" := by
  decide

/-- Claim C10 (engine absent): when no engine API has namespace `"bor"`,
`GetRootHash` returns `("", error "Only available in Bor engine")` and
`GetVoteOnRootHash` returns `(false, that error)`, and both leave the state
as it was: the gate and the floor are unchanged and nothing is added to the
log, so `Lock`, `Unlock`, the oracle and the chain reader are not called. -/
theorem engine_absent (b : Backend) (s : State) (starBlockNr endBlockNr : Nat)
    (rootHash milestoneId : String)
    (hnone : ∀ a ∈ b.apis, a.Namespace ≠ "bor") :
    GetRootHash b s starBlockNr endBlockNr
      = (.ret ("", some (errors.New "Only available in Bor engine")), s) ∧
    GetVoteOnRootHash b s starBlockNr endBlockNr rootHash milestoneId
      = (.ret (false, some (errors.New "Only available in Bor engine")), s) := by
  have h := findBorAPI_no_bor b.apis none hnone
  simp [GetRootHash, GetVoteOnRootHash, h]

theorem engine_absent_witness :
    GetRootHash backendNoBor stateHeld200 100 200
      = (.ret ("", some (errors.New "Only available in Bor engine")), stateHeld200) ∧
    GetVoteOnRootHash backendNoBor stateHeld200 100 200 "R" "m1"
      = (.ret (false, some (errors.New "Only available in Bor engine")), stateHeld200) :=
  engine_absent backendNoBor stateHeld200 100 200 "R" "m1" (by simp [backendNoBor])

/-! ## Capability lookup -/

/-- When every `"bor"` entry carries a `*bor.API`, the lookup loop returns. -/
theorem findBorAPI_ret_of_all_borAPI (l : List API) (init : Option BorAPI)
    (h : ∀ a ∈ l, a.Namespace = "bor" → a.Service.isBorAPI = true) :
    ∃ o, findBorAPI l init = .ret o := by
  induction l generalizing init with
  | nil => exact ⟨init, rfl⟩
  | cons a rest ih =>
    have hrest : ∀ x ∈ rest, x.Namespace = "bor" → x.Service.isBorAPI = true :=
      fun x hx => h x (List.mem_cons_of_mem a hx)
    by_cases ha : a.Namespace = "bor"
    · have hs := h a (List.mem_cons_self a rest) ha
      cases hsv : a.Service with
      | borAPI p => simpa [findBorAPI, ha, hsv] using ih p hrest
      | other => simp [hsv, Service.isBorAPI] at hs
    · simpa [findBorAPI, ha] using ih init hrest

/-- A `"bor"` entry whose service is not a `*bor.API` makes the lookup loop
panic, wherever it stands in the list. -/
theorem findBorAPI_panic_of_bad_service (l : List API) (init : Option BorAPI)
    (h : ∃ a ∈ l, a.Namespace = "bor" ∧ a.Service.isBorAPI = false) :
    findBorAPI l init = .panic "interface conversion: interface is not *bor.API" := by
  induction l generalizing init with
  | nil => simp at h
  | cons a rest ih =>
    by_cases ha : a.Namespace = "bor"
    · cases hsv : a.Service with
      | other => simp [findBorAPI, ha, hsv]
      | borAPI p =>
        have hrest : ∃ x ∈ rest, x.Namespace = "bor" ∧ x.Service.isBorAPI = false := by
          rcases h with ⟨x, hx, hn, hb⟩
          rcases List.mem_cons.1 hx with rfl | hx
          · simp [hsv, Service.isBorAPI] at hb
          · exact ⟨x, hx, hn, hb⟩
        simpa [findBorAPI, ha, hsv] using ih p hrest
    · have hrest : ∃ x ∈ rest, x.Namespace = "bor" ∧ x.Service.isBorAPI = false := by
        rcases h with ⟨x, hx, hn, hb⟩
        rcases List.mem_cons.1 hx with rfl | hx
        · exact absurd hn ha
        · exact ⟨x, hx, hn, hb⟩
      simpa [findBorAPI, ha] using ih init hrest

/-- Claim C11, as stated, fails: on an engine API list whose `"bor"` entry
carries a service that is not a `*bor.API`, the capability lookup of both
`GetRootHash` and `GetVoteOnRootHash` panics in the type assertion instead of
yielding an API or the engine-unavailable error. -/
theorem capability_lookup_panics_counterexample :
    GetRootHash backendBadBor stateFree 100 200
      = (.panic "interface conversion: interface is not *bor.API", stateFree) ∧
    GetVoteOnRootHash backendBadBor stateFree 100 200 "R" "m1"
      = (.panic "interface conversion: interface is not *bor.API", stateFree) := by
  decide

/-- Over entries whose `"bor"` services are all `*bor.API`, the lookup loop
runs through to the rest of the list. -/
theorem findBorAPI_append_of_borAPI (pre rest : List API) (init : Option BorAPI)
    (h : ∀ a ∈ pre, a.Namespace = "bor" → a.Service.isBorAPI = true) :
    ∃ o, findBorAPI (pre ++ rest) init = findBorAPI rest o := by
  induction pre generalizing init with
  | nil => exact ⟨init, rfl⟩
  | cons a tl ih =>
    have htl : ∀ x ∈ tl, x.Namespace = "bor" → x.Service.isBorAPI = true :=
      fun x hx => h x (List.mem_cons_of_mem a hx)
    by_cases ha : a.Namespace = "bor"
    · have hs := h a (List.mem_cons_self a tl) ha
      cases hsv : a.Service with
      | borAPI p => simpa [findBorAPI, ha, hsv] using ih p htl
      | other => simp [hsv, Service.isBorAPI] at hs
    · simpa [findBorAPI, ha] using ih init htl

/-- The lookup loop returns what the last `"bor"` entry carries. -/
theorem findBorAPI_last_bor (pre post : List API) (a : API) (p init : Option BorAPI)
    (hpre : ∀ x ∈ pre, x.Namespace = "bor" → x.Service.isBorAPI = true)
    (ha : a.Namespace = "bor") (hsv : a.Service = .borAPI p)
    (hpost : ∀ x ∈ post, x.Namespace ≠ "bor") :
    findBorAPI (pre ++ a :: post) init = .ret p := by
  rcases findBorAPI_append_of_borAPI pre (a :: post) init hpre with ⟨o, ho⟩
  rw [ho]
  simp [findBorAPI, ha, hsv, findBorAPI_no_bor post p hpost]

/-- Claim C11, amended: for every list of engine APIs in which each entry with
namespace `"bor"` carries a `*bor.API` (a nil pointer included), whatever the
other entries carry, the capability lookup completes without panic. Its
result is what the last `"bor"` entry carries, and nil when there is no such
entry. When the result is nil (no entry, or a nil `*bor.API` in the last
one), both functions return the engine-unavailable error with the state
untouched; when it is an API, `GetRootHash` returns what that API answers and
`GetVoteOnRootHash` goes on to `Lock`. -/
theorem capability_lookup_of_borAPI_services (b : Backend) (s : State)
    (starBlockNr endBlockNr : Nat) (rootHash milestoneId : String)
    (h : ∀ a ∈ b.apis, a.Namespace = "bor" → a.Service.isBorAPI = true) :
    (∃ o, findBorAPI b.apis none = .ret o) ∧
    (∀ pre a post p, b.apis = pre ++ a :: post → a.Namespace = "bor" →
      a.Service = .borAPI p → (∀ x ∈ post, x.Namespace ≠ "bor") →
      findBorAPI b.apis none = .ret p) ∧
    ((∀ a ∈ b.apis, a.Namespace ≠ "bor") → findBorAPI b.apis none = .ret none) ∧
    (findBorAPI b.apis none = .ret none →
      GetRootHash b s starBlockNr endBlockNr
        = (.ret ("", some (errors.New "Only available in Bor engine")), s) ∧
      GetVoteOnRootHash b s starBlockNr endBlockNr rootHash milestoneId
        = (.ret (false, some (errors.New "Only available in Bor engine")), s)) ∧
    (∀ api, findBorAPI b.apis none = .ret (some api) →
      (GetRootHash b s starBlockNr endBlockNr).1
        = .ret (match (api.GetRootHash starBlockNr endBlockNr).2 with
                | some err => ("", some err)
                | none => ((api.GetRootHash starBlockNr endBlockNr).1, none)) ∧
      ∃ rest, (GetVoteOnRootHash b s starBlockNr endBlockNr rootHash milestoneId).2.log
        = s.log ++ Event.lock endBlockNr (s.gate.Lock endBlockNr).1 :: rest) := by
  refine ⟨findBorAPI_ret_of_all_borAPI b.apis none h, ?_, findBorAPI_no_bor b.apis none, ?_, ?_⟩
  · intro pre a post p hl ha hsv hpost
    have hpre : ∀ x ∈ pre, x.Namespace = "bor" → x.Service.isBorAPI = true := by
      intro x hx
      exact h x (by rw [hl]; exact List.mem_append_left _ hx)
    rw [hl]
    exact findBorAPI_last_bor pre post a p none hpre ha hsv hpost
  · intro ho
    exact ⟨by simp [GetRootHash, ho], by simp [GetVoteOnRootHash, ho]⟩
  · intro api ho
    constructor
    · simp only [GetRootHash, ho]
      cases (api.GetRootHash starBlockNr endBlockNr).2 <;> rfl
    · simp only [GetVoteOnRootHash, ho, State.Lock, State.Unlock, State.record]
      cases (s.gate.Lock endBlockNr).1 with
      | false => exact ⟨[Event.unlock false "" Hash.zero], by simp⟩
      | true =>
        rcases api.GetRootHash starBlockNr endBlockNr with ⟨root, err⟩
        cases err with
        | some e =>
          exact ⟨[Event.getRootHash starBlockNr endBlockNr,
            Event.unlock false "" Hash.zero], by simp⟩
        | none =>
          by_cases hr : root = rootHash
          · cases hblk : b.GetBlockByNumber endBlockNr with
            | none =>
              exact ⟨[Event.getRootHash starBlockNr endBlockNr,
                Event.getBlockByNumber endBlockNr], by simp [hr]⟩
            | some blk =>
              exact ⟨[Event.getRootHash starBlockNr endBlockNr,
                Event.getBlockByNumber endBlockNr,
                Event.unlock true milestoneId blk.hash], by simp [hr]⟩
          · exact ⟨[Event.getRootHash starBlockNr endBlockNr,
              Event.unlock false "" Hash.zero], by simp [hr]⟩

theorem capability_lookup_of_borAPI_services_witness :
    (findBorAPI backendNilBor.apis none = .ret none ∧
     GetRootHash backendNilBor stateFree 100 200
       = (.ret ("", some (errors.New "Only available in Bor engine")), stateFree) ∧
     GetVoteOnRootHash backendNilBor stateFree 100 200 "R" "m1"
       = (.ret (false, some (errors.New "Only available in Bor engine")), stateFree)) ∧
    (findBorAPI backendTwoBor.apis none = .ret (some oracleR) ∧
     (GetRootHash backendTwoBor stateFree 100 200).1 = .ret ("R", none)) := by
  have hnil := capability_lookup_of_borAPI_services backendNilBor stateFree 100 200 "R" "m1"
    (by simp [backendNilBor, Service.isBorAPI])
  have htwo := capability_lookup_of_borAPI_services backendTwoBor stateFree 100 200 "R" "m1"
    (by simp [backendTwoBor, Service.isBorAPI])
  have h1 : findBorAPI backendNilBor.apis none = .ret none :=
    hnil.2.1 [⟨"eth", .other⟩] ⟨"bor", .borAPI none⟩ [] none rfl rfl rfl (by simp)
  have h2 : findBorAPI backendTwoBor.apis none = .ret (some oracleR) :=
    htwo.2.1 [⟨"bor", .borAPI (some oracleFailing)⟩, ⟨"eth", .other⟩]
      ⟨"bor", .borAPI (some oracleR)⟩ [] (some oracleR) rfl rfl rfl (by simp)
  exact ⟨⟨h1, hnil.2.2.2.1 h1⟩, h2, (htwo.2.2.2.2 oracleR h2).1⟩

/-! ## The mismatch message and the pass-through -/

/-- Claim C12, as stated, fails: with local root `"R"` and claimed root `"Q"`
the message is `"RootHash mismatch+RQ"`, not `"RootHash mismatch+R+Q"`; and
the pairs (`"ab"`, `"c"`) and (`"a"`, `"bc"`) of local and claimed root give
the same message, so the two hashes are not told apart by it. -/
theorem root_mismatch_message_counterexample :
    (GetVoteOnRootHash backendR stateFree 100 200 "Q" "m1").1
      = .ret (false, some (errors.New "RootHash mismatch+RQ")) ∧
    (GetVoteOnRootHash backendR stateFree 100 200 "Q" "m1").1
      ≠ .ret (false, some (errors.New ("RootHash mismatch+" ++ "R" ++ "+" ++ "Q"))) ∧
    (GetVoteOnRootHash (backendConst "ab") stateFree 100 200 "c" "m1").1
      = (GetVoteOnRootHash (backendConst "a") stateFree 100 200 "bc" "m1").1 := by
  decide

/-- Claim C12, amended: when `GetVoteOnRootHash` rejects because the local
root `L` differs from the claimed root `C`, the returned error's message is
exactly `"RootHash mismatch+"` followed by `L` and then directly by `C`, with
nothing between the two. -/
theorem root_mismatch_message (b : Backend) (s : State) (api : BorAPI)
    (starBlockNr endBlockNr : Nat) (C milestoneId L : String)
    (hapi : findBorAPI b.apis none = .ret (some api))
    (hfree : s.gate.held = false)
    (horacle : api.GetRootHash starBlockNr endBlockNr = (L, none))
    (hne : L ≠ C) :
    ∃ err, (GetVoteOnRootHash b s starBlockNr endBlockNr C milestoneId).1
        = .ret (false, some err) ∧
      err.msg = "RootHash mismatch+" ++ L ++ C := by
  refine ⟨errors.New ("RootHash mismatch+" ++ L ++ C), ?_, rfl⟩
  simp [GetVoteOnRootHash, hapi, State.Lock, SprintLock.Lock, hfree, horacle, hne]

theorem root_mismatch_message_witness :
    ∃ err, (GetVoteOnRootHash backendR stateFree 100 200 "Q" "m1").1
        = .ret (false, some err) ∧
      err.msg = "RootHash mismatch+" ++ "R" ++ "Q" :=
  root_mismatch_message backendR stateFree oracleR 100 200 "Q" "m1" "R" rfl rfl rfl
    (by decide)

/-- Claim C13 (`GetRootHash` is a pass-through): when the engine exposes the
bor API, the only call `GetRootHash` makes is one oracle call with
`(starBlockNr, endBlockNr)`; it returns `(r, nil)` when the oracle returns
`(r, nil)` and `("", e)` when the oracle returns the error `e`; it makes no
`Lock` and no `Unlock`, and the gate (held or not) and floor are unchanged. -/
theorem GetRootHash_pass_through (b : Backend) (s : State) (api : BorAPI)
    (starBlockNr endBlockNr : Nat)
    (hapi : findBorAPI b.apis none = .ret (some api)) :
    (GetRootHash b s starBlockNr endBlockNr).2.log
      = s.log ++ [Event.getRootHash starBlockNr endBlockNr] ∧
    oracleCalls ((GetRootHash b s starBlockNr endBlockNr).2.log.drop s.log.length) = 1 ∧
    lockCalls ((GetRootHash b s starBlockNr endBlockNr).2.log.drop s.log.length) = 0 ∧
    unlockCalls ((GetRootHash b s starBlockNr endBlockNr).2.log.drop s.log.length) = 0 ∧
    (GetRootHash b s starBlockNr endBlockNr).2.gate = s.gate ∧
    (∀ r, api.GetRootHash starBlockNr endBlockNr = (r, none) →
      (GetRootHash b s starBlockNr endBlockNr).1 = .ret (r, none)) ∧
    (∀ r e, api.GetRootHash starBlockNr endBlockNr = (r, some e) →
      (GetRootHash b s starBlockNr endBlockNr).1 = .ret ("", some e)) := by
  rcases horacle : api.GetRootHash starBlockNr endBlockNr with ⟨root, err⟩
  cases err with
  | none =>
    simp [GetRootHash, hapi, horacle, State.record, oracleCalls, lockCalls, unlockCalls]
  | some e =>
    simp [GetRootHash, hapi, horacle, State.record, oracleCalls, lockCalls, unlockCalls]

theorem GetRootHash_pass_through_witness :
    (GetRootHash backendR stateHeld200 100 200).2.log
      = stateHeld200.log ++ [Event.getRootHash 100 200] ∧
    oracleCalls ((GetRootHash backendR stateHeld200 100 200).2.log.drop
      stateHeld200.log.length) = 1 ∧
    lockCalls ((GetRootHash backendR stateHeld200 100 200).2.log.drop
      stateHeld200.log.length) = 0 ∧
    unlockCalls ((GetRootHash backendR stateHeld200 100 200).2.log.drop
      stateHeld200.log.length) = 0 ∧
    (GetRootHash backendR stateHeld200 100 200).2.gate = stateHeld200.gate ∧
    (∀ r, oracleR.GetRootHash 100 200 = (r, none) →
      (GetRootHash backendR stateHeld200 100 200).1 = .ret (r, none)) ∧
    (∀ r e, oracleR.GetRootHash 100 200 = (r, some e) →
      (GetRootHash backendR stateHeld200 100 200).1 = .ret ("", some e)) :=
  GetRootHash_pass_through backendR stateHeld200 oracleR 100 200 rfl

/-! ## Bor receipts and logs -/

/-- Claim C14 (`GetBorBlockReceipt`): for every hash, an absent receipt gives
`(nil, NotFound)`, a present receipt `r` gives `(r, nil)`, and the error is
non-nil exactly when the receipt is absent. -/
theorem GetBorBlockReceipt_not_found_iff (GetBorReceiptByHash : Hash → Option Receipt)
    (hash : Hash) :
    (GetBorReceiptByHash hash = none →
      GetBorBlockReceipt GetBorReceiptByHash hash = (none, some ethereum.NotFound)) ∧
    (∀ r, GetBorReceiptByHash hash = some r →
      GetBorBlockReceipt GetBorReceiptByHash hash = (some r, none)) ∧
    ((GetBorBlockReceipt GetBorReceiptByHash hash).2 ≠ none ↔
      GetBorReceiptByHash hash = none) := by
  cases h : GetBorReceiptByHash hash with
  | none => simp [GetBorBlockReceipt, h]
  | some r => simp [GetBorBlockReceipt, h]

/-- Claim C15 (`GetBorBlockLogs` never fails): for every hash the error is
nil; an absent receipt gives the nil list, a present receipt gives exactly
its `Logs`. -/
theorem GetBorBlockLogs_never_fails (GetBorReceiptByHash : Hash → Option Receipt)
    (hash : Hash) :
    (GetBorBlockLogs GetBorReceiptByHash hash).2 = none ∧
    (GetBorReceiptByHash hash = none →
      (GetBorBlockLogs GetBorReceiptByHash hash).1 = none) ∧
    (∀ r, GetBorReceiptByHash hash = some r →
      (GetBorBlockLogs GetBorReceiptByHash hash).1 = r.Logs) := by
  cases h : GetBorReceiptByHash hash with
  | none => simp [GetBorBlockLogs, h]
  | some r => simp [GetBorBlockLogs, h]

/-! ## Node configuration -/

theorem fillBigInt.round_of_accepts (SetString : String → Nat → Option Int) (path : String)
    (td : Option Int) (str : String) (h : fillBigInt.accepts SetString str = true) :
    fillBigInt.round SetString path td str = .ok (fillBigInt.value SetString td str, "") := by
  by_cases he : str = ""
  · simp [fillBigInt.round, fillBigInt.value, he]
  · cases hp : fillBigInt.parse SetString str with
    | none => simp [fillBigInt.accepts, he, hp] at h
    | some b => simp [fillBigInt.round, fillBigInt.value, he, hp]

theorem fillBigInt.round_of_rejects (SetString : String → Nat → Option Int) (path : String)
    (td : Option Int) (str : String) (h : fillBigInt.accepts SetString str = false) :
    fillBigInt.round SetString path td str
      = .error (fmt.Errorf (path ++ " can't parse big int " ++ str)) := by
  by_cases he : str = ""
  · simp [fillBigInt.accepts, he] at h
  · cases hp : fillBigInt.parse SetString str with
    | none => simp [fillBigInt.round, he, hp]
    | some b => simp [fillBigInt.accepts, he, hp] at h

/-- Claim C17 (accepted sync modes), what the code does: the switch accepts
`"full"` and `"snap"` and nothing else; for `"fast"`, which the comment above
the switch lists as a possible value, it returns the error
`sync mode 'fast' not found`, as it does with the value filled in for every
value other than `"full"` and `"snap"` (`"light"` among them). -/
theorem buildEth_syncMode_fast_rejected :
    Config.buildEth.syncMode configFast
      = .error (fmt.Errorf "sync mode 'fast' not found") ∧
    (∀ c : Config, c.SyncMode = "full" →
      Config.buildEth.syncMode c = .ok downloader.SyncMode.FullSync) ∧
    (∀ c : Config, c.SyncMode = "snap" →
      Config.buildEth.syncMode c = .ok downloader.SyncMode.SnapSync) ∧
    (∀ c : Config, c.SyncMode ≠ "full" → c.SyncMode ≠ "snap" →
      Config.buildEth.syncMode c
        = .error (fmt.Errorf ("sync mode '" ++ c.SyncMode ++ "' not found"))) := by
  refine ⟨rfl, ?_, ?_, ?_⟩
  · intro c h
    simp [Config.buildEth.syncMode, h]
  · intro c h
    simp [Config.buildEth.syncMode, h]
  · intro c h1 h2
    simp [Config.buildEth.syncMode, h1, h2]

/-- Claim C18 (`fillBigInt` parsing), for a configuration whose `gpo` and
`miner` blocks are present. A raw string is parsed in base 16 without its
`"0x"` when it has one and in base 10 otherwise; an empty raw string leaves
its field unchanged and a non-empty one sets it to the parsed value. When
all three raw strings pass, `fillBigInt` returns nil, all raw strings are
empty afterwards and a second `fillBigInt` changes nothing. When one does not
parse, the error names the first such pair, in the order `gpo.maxprice`,
`gpo.ignoreprice`, `miner.gasprice`, and that pair and the later ones are
left as they were. -/
theorem fillBigInt_parsing (SetString : String → Nat → Option Int) (c : Config)
    (g : GpoConfig) (sl : SealerConfig) (hg : c.Gpo = some g) (hs : c.Sealer = some sl) :
    (∀ str, fillBigInt.parse SetString str
      = if strings.HasPrefix str "0x" then SetString (strings.sliceFrom str 2) 16
        else SetString str 10) ∧
    (∀ td, fillBigInt.value SetString td "" = td) ∧
    (∀ td str, str ≠ "" →
      fillBigInt.value SetString td str = fillBigInt.parse SetString str) ∧
    (fillBigInt.accepts SetString g.MaxPriceRaw = true →
     fillBigInt.accepts SetString g.IgnorePriceRaw = true →
     fillBigInt.accepts SetString sl.GasPriceRaw = true →
      c.fillBigInt SetString
        = (.ret none,
           { c with
             Gpo := some ⟨fillBigInt.value SetString g.MaxPrice g.MaxPriceRaw, "",
                          fillBigInt.value SetString g.IgnorePrice g.IgnorePriceRaw, ""⟩,
             Sealer := some ⟨fillBigInt.value SetString sl.GasPrice sl.GasPriceRaw, ""⟩ }) ∧
      (c.fillBigInt SetString).2.fillBigInt SetString
        = (.ret none, (c.fillBigInt SetString).2)) ∧
    (fillBigInt.accepts SetString g.MaxPriceRaw = false →
      c.fillBigInt SetString
        = (.ret (some (fmt.Errorf ("gpo.maxprice" ++ " can't parse big int " ++ g.MaxPriceRaw))),
           c)) ∧
    (fillBigInt.accepts SetString g.MaxPriceRaw = true →
     fillBigInt.accepts SetString g.IgnorePriceRaw = false →
      c.fillBigInt SetString
        = (.ret (some (fmt.Errorf
              ("gpo.ignoreprice" ++ " can't parse big int " ++ g.IgnorePriceRaw))),
           { c with
             Gpo := some { g with
               MaxPrice := fillBigInt.value SetString g.MaxPrice g.MaxPriceRaw,
               MaxPriceRaw := "" } })) ∧
    (fillBigInt.accepts SetString g.MaxPriceRaw = true →
     fillBigInt.accepts SetString g.IgnorePriceRaw = true →
     fillBigInt.accepts SetString sl.GasPriceRaw = false →
      c.fillBigInt SetString
        = (.ret (some (fmt.Errorf
              ("miner.gasprice" ++ " can't parse big int " ++ sl.GasPriceRaw))),
           { c with
             Gpo := some ⟨fillBigInt.value SetString g.MaxPrice g.MaxPriceRaw, "",
                          fillBigInt.value SetString g.IgnorePrice g.IgnorePriceRaw, ""⟩ })) := by
  refine ⟨fun _ => rfl, fun _ => by simp [fillBigInt.value],
    fun _ _ hne => by simp [fillBigInt.value, hne], ?_, ?_, ?_, ?_⟩
  · intro h1 h2 h3
    have hfirst : c.fillBigInt SetString
        = (.ret none,
           { c with
             Gpo := some ⟨fillBigInt.value SetString g.MaxPrice g.MaxPriceRaw, "",
                          fillBigInt.value SetString g.IgnorePrice g.IgnorePriceRaw, ""⟩,
             Sealer := some ⟨fillBigInt.value SetString sl.GasPrice sl.GasPriceRaw, ""⟩ }) := by
      simp [Config.fillBigInt, hg, hs, fillBigInt.round_of_accepts, h1, h2, h3]
    refine ⟨hfirst, ?_⟩
    rw [hfirst]
    have hempty : fillBigInt.accepts SetString "" = true := by simp [fillBigInt.accepts]
    simp [Config.fillBigInt, fillBigInt.round_of_accepts, hempty, fillBigInt.value]
  · intro h1
    simp [Config.fillBigInt, hg, hs, fillBigInt.round_of_rejects, h1]
  · intro h1 h2
    simp [Config.fillBigInt, hg, hs, fillBigInt.round_of_accepts, fillBigInt.round_of_rejects,
      h1, h2]
  · intro h1 h2 h3
    simp [Config.fillBigInt, hg, hs, fillBigInt.round_of_accepts, fillBigInt.round_of_rejects,
      h1, h2, h3]

theorem fillBigInt_parsing_witness :
    configRaw.fillBigInt sampleSetString
      = (.ret none,
         { configRaw with Gpo := some ⟨some 16, "", some 2, ""⟩,
                          Sealer := some ⟨some 25, ""⟩ }) ∧
    (configRaw.fillBigInt sampleSetString).2.fillBigInt sampleSetString
      = (.ret none, (configRaw.fillBigInt sampleSetString).2) :=
  (fillBigInt_parsing sampleSetString configRaw ⟨none, "0x10", some 2, ""⟩ ⟨some 1, "25"⟩
    rfl rfl).2.2.2.1 (by decide) (by decide) (by decide)

/-- On a configuration without `gpo` block `fillBigInt` panics, whatever the
other blocks hold. -/
theorem fillBigInt_panics_of_nil_gpo (SetString : String → Nat → Option Int) (c : Config)
    (h : c.Gpo = none) : c.fillBigInt SetString = (.panic nilDereference, c) := by
  simp [Config.fillBigInt, h]

/-- With the `gpo`, `miner`, `txpool` and `cache` blocks present, neither
`fillBigInt` nor `fillTimeDurations` panics. -/
theorem fill_returns_of_blocks (SetString : String → Nat → Option Int)
    (ParseDuration : String → Option Int) (c : Config)
    (hg : c.Gpo.isSome = true) (hs : c.Sealer.isSome = true)
    (ht : c.TxPool.isSome = true) (hc : c.Cache.isSome = true) :
    (∃ e, (c.fillBigInt SetString).1 = .ret e) ∧
    (∃ e, (c.fillTimeDurations ParseDuration).1 = .ret e) := by
  rcases Option.isSome_iff_exists.1 hg with ⟨g, hg⟩
  rcases Option.isSome_iff_exists.1 hs with ⟨sl, hs⟩
  rcases Option.isSome_iff_exists.1 ht with ⟨t, ht⟩
  rcases Option.isSome_iff_exists.1 hc with ⟨ch, hc⟩
  constructor
  · simp only [Config.fillBigInt, hg, hs]
    cases fillBigInt.round SetString "gpo.maxprice" g.MaxPrice g.MaxPriceRaw with
    | error e => exact ⟨_, rfl⟩
    | ok p1 =>
      cases fillBigInt.round SetString "gpo.ignoreprice" g.IgnorePrice g.IgnorePriceRaw with
      | error e => exact ⟨_, rfl⟩
      | ok p2 =>
        cases fillBigInt.round SetString "miner.gasprice" sl.GasPrice sl.GasPriceRaw with
        | error e => exact ⟨_, rfl⟩
        | ok p3 => exact ⟨_, rfl⟩
  · simp only [Config.fillTimeDurations, ht, hc]
    cases fillTimeDurations.round ParseDuration "txpool.lifetime" t.LifeTime t.LifeTimeRaw with
    | error e => exact ⟨_, rfl⟩
    | ok p1 =>
      cases fillTimeDurations.round ParseDuration "txpool.rejournal" t.Rejournal
          t.RejournalRaw with
      | error e => exact ⟨_, rfl⟩
      | ok p2 =>
        cases fillTimeDurations.round ParseDuration "cache.rejournal" ch.Rejournal
            ch.RejournalRaw with
        | error e => exact ⟨_, rfl⟩
        | ok p3 => exact ⟨_, rfl⟩

/-- Claim C19 (nil-safe post-processing), at the failing input: an HCL file
without a `gpo` block. Decoding leaves `Gpo` nil in the configuration that
`readConfigFile` constructed, `fillBigInt` panics on it with a nil pointer
dereference, and so does `readConfigFile`, whatever the two parsers are. -/
theorem readConfigFile_panics_without_gpo :
    (filesEmptyHcl.DecodeFile "config.hcl" readConfigFile.initial).1.Gpo = none ∧
    (∀ SetString : String → Nat → Option Int,
      ((filesEmptyHcl.DecodeFile "config.hcl" readConfigFile.initial).1.fillBigInt
        SetString).1 = .panic nilDereference) ∧
    (∀ (SetString : String → Nat → Option Int) (ParseDuration : String → Option Int),
      readConfigFile SetString ParseDuration filesEmptyHcl "config.hcl"
        = .panic nilDereference) :=
  ⟨rfl, fun _ => rfl, fun _ _ => rfl⟩

end Bor
